import Mathlib

/-!
Shallow embedding of the bones_volleyball match simulation core.

The embedding translates the per-tick simulation systems of the repository
(src/gameplay/gameplay_player.rs, src/gameplay/gameplay_other_entities.rs,
src/gameplay/gameplay.rs, src/input.rs) into Lean definitions.  Scalar
f32 arithmetic of the source is modelled by exact real arithmetic; the
u32 dense input word is modelled by Nat.  The world contains exactly the
entities created by gameplay_startup: two players, one ball, one net.
-/

namespace BonesVolleyball

/-- Two dimensional vector, mirroring glam Vec2 as used by the source. -/
structure V2 where
  x : ℝ
  y : ℝ

/-- `const TARGET_SCORE: u32 = 15` -/
def TARGET_SCORE : ℕ := 15

/-- `const GROUND_LEVEL: f32 = -244.0` -/
noncomputable def GROUND_LEVEL : ℝ := -244.0

/-- `const GRAVITY: f32 = 0.175 * 1.5 * 1.5` -/
noncomputable def GRAVITY : ℝ := 0.175 * 1.5 * 1.5

/-- `const MOVE_SPEED: f32 = 4.35` -/
noncomputable def MOVE_SPEED : ℝ := 4.35

/-- `const JUMP_VELOCITY: f32 = 7.5 * 1.5` -/
noncomputable def JUMP_VELOCITY : ℝ := 7.5 * 1.5

/-- `const LEFT_BOUNDARY: f32 = -530.0` -/
noncomputable def LEFT_BOUNDARY : ℝ := -530.0

/-- `const RIGHT_BOUNDARY: f32 = 510.0` -/
noncomputable def RIGHT_BOUNDARY : ℝ := 510.0

/-- `const CENTER_BOUNDARY: f32 = 0.0` -/
noncomputable def CENTER_BOUNDARY : ℝ := 0.0

/-- `const NET_WIDTH: f32 = 10.0` -/
noncomputable def NET_WIDTH : ℝ := 10.0

/-- `const NET_HEIGHT: f32 = 62.00` -/
noncomputable def NET_HEIGHT : ℝ := 62.00

/-- `const PLAYER_WIDTH: f32 = 90.0` -/
noncomputable def PLAYER_WIDTH : ℝ := 90.0

/-- `const PLAYER_HEIGHT: f32 = 14.0` -/
noncomputable def PLAYER_HEIGHT : ℝ := 14.0

/-- `const BALL_RADIUS: f32 = 10.0` -/
noncomputable def BALL_RADIUS : ℝ := 10.0

/-- `const BALL_BOUNCE_FACTOR: f32 = 0.8` -/
noncomputable def BALL_BOUNCE_FACTOR : ℝ := 0.8

/-- `const PLAYER_BOUNCE_FACTOR: f32 = 1.2` -/
noncomputable def PLAYER_BOUNCE_FACTOR : ℝ := 1.2

/-- `const MAX_BALL_SPEED: f32 = 11.25 * 1.5` -/
noncomputable def MAX_BALL_SPEED : ℝ := 11.25 * 1.5

/-- Rust f32::clamp: restrict x to the interval [lo, hi] (used with lo ≤ hi). -/
noncomputable def clampR (x lo hi : ℝ) : ℝ := min (max x lo) hi

/-- glam Vec2::length: Euclidean norm of the vector. -/
noncomputable def V2.length (v : V2) : ℝ := Real.sqrt (v.x ^ 2 + v.y ^ 2)

/-- Match score state, from MatchState in src/gameplay/gameplay.rs
    (`player_scores: [u32; 2], target_score: u32`). -/
structure MatchState where
  score0 : ℕ
  score1 : ℕ
  target_score : ℕ

/-- `MatchState::new` -/
def MatchState.new (target_score : ℕ) : MatchState :=
  { score0 := 0, score1 := 0, target_score := target_score }

/-- `MatchState::get_player_score` -/
def MatchState.get_player_score (ms : MatchState) (player_idx : Fin 2) : ℕ :=
  if player_idx = 0 then ms.score0 else ms.score1

/-- `MatchState::increment_player_score` -/
def MatchState.increment_player_score (ms : MatchState) (player_idx : Fin 2) : MatchState :=
  if player_idx = 0 then { ms with score0 := ms.score0 + 1 }
  else { ms with score1 := ms.score1 + 1 }

/-- `MatchState::check_for_match_winner`: position of the first score
    reaching the target, in increasing index order. -/
def MatchState.check_for_match_winner (ms : MatchState) : Option (Fin 2) :=
  if ms.score0 ≥ ms.target_score then some 0
  else if ms.score1 ≥ ms.target_score then some 1
  else none

/-- `MatchState::is_finished` -/
def MatchState.is_finished (ms : MatchState) : Bool :=
  ms.check_for_match_winner.isSome

/-- The Ball component of src/gameplay/gameplay_other_entities.rs. -/
structure Ball where
  velocity : V2

/-- The Player component of src/gameplay/gameplay_player.rs. -/
structure Player where
  velocity : V2
  is_grounded : Bool
  idx : Fin 2

/-- The fields of PlayerControl (src/input.rs) consumed by the simulation
    and by the dense encoder. -/
structure PlayerControl where
  left : ℝ
  right : ℝ
  up : ℝ
  down : ℝ
  jump_pressed : Bool
  jump_just_pressed : Bool
  esc_start_pressed : Bool
  enter_pressed : Bool

/-- MatchInputs (src/input.rs): one PlayerControl per player. -/
structure MatchInputs where
  p0 : PlayerControl
  p1 : PlayerControl

/-- `MatchInputs::get_control` -/
def MatchInputs.get_control (mi : MatchInputs) (player_idx : Fin 2) : PlayerControl :=
  if player_idx = 0 then mi.p0 else mi.p1

end BonesVolleyball

namespace BonesVolleyball

/-! ### Dense input encoding (src/input.rs)

`DensePlayerControl` is a u32, modelled as a Nat.  The movement direction
is quantized externally (bones_framework DenseMoveDirection) into a u16;
the embedding takes that already-quantized 16-bit word as the input `m`
(the u16 type of the source guarantees m < 2^16). -/

/-- `DensePlayerControl::new`: pack the quantized 16-bit movement word and
    the three flag bits (jump = bit 16, esc/start = bit 17, enter = bit 18). -/
def DensePlayerControl.new (m : ℕ) (jump_pressed esc_start_pressed enter_pressed : Bool) : ℕ :=
  let value := m
  let value := if jump_pressed then value ||| (1 <<< 16) else value
  let value := if esc_start_pressed then value ||| (1 <<< 17) else value
  let value := if enter_pressed then value ||| (1 <<< 18) else value
  value

/-- `DensePlayerControl::move_direction`, up to the external 16-bit
    quantization: the stored 16-bit movement word `self.0 & 0xFFFF`. -/
def DensePlayerControl.move_bits (v : ℕ) : ℕ := v &&& 0xFFFF

/-- `DensePlayerControl::jump_pressed` -/
def DensePlayerControl.jump_pressed (v : ℕ) : Bool := v &&& (1 <<< 16) != 0

/-- `DensePlayerControl::esc_start_pressed` -/
def DensePlayerControl.esc_start_pressed (v : ℕ) : Bool := v &&& (1 <<< 17) != 0

/-- `DensePlayerControl::enter_pressed` -/
def DensePlayerControl.enter_pressed (v : ℕ) : Bool := v &&& (1 <<< 18) != 0

/-! ### World state

The entity set created by gameplay_startup (src/gameplay/gameplay.rs):
two players (player 1 of the source at index 0, spawned before index 1,
so entity iteration visits index 0 first), one ball, one net.  Each
entity carries its Transform translation as a V2 (the z component is
never read or written by the simulation systems).  `ball_alpha` models
the alpha channel of the ball Path2d colour written by
update_ball_visibility. -/

structure World where
  match_state : MatchState
  player0 : Player
  player0_pos : V2
  player1 : Player
  player1_pos : V2
  ball : Ball
  ball_pos : V2
  net_pos : V2
  ball_alpha : ℝ

/-! ### player_movement (src/gameplay/gameplay_player.rs) -/

/-- The body of the per-player loop of `player_movement`. -/
noncomputable def player_movement_single (mi : MatchInputs) (p : Player) (pos : V2) :
    Player × V2 :=
  let player_control := mi.get_control p.idx
  let movement := clampR (player_control.right - player_control.left) (-1) 1
  let jump := player_control.jump_pressed
  -- Apply gravity
  let vy := p.velocity.y - GRAVITY
  -- Set horizontal velocity
  let vx := movement * MOVE_SPEED
  -- Handle jumping
  let vy := if jump && p.is_grounded then JUMP_VELOCITY else vy
  -- Update position
  let x := pos.x + vx
  let y := pos.y + vy
  -- Determine player boundaries
  let left_bound :=
    if p.idx = 0 then LEFT_BOUNDARY + PLAYER_WIDTH / 2
    else CENTER_BOUNDARY + NET_WIDTH + PLAYER_WIDTH / 2
  let right_bound :=
    if p.idx = 0 then CENTER_BOUNDARY - PLAYER_WIDTH / 2 - NET_WIDTH
    else RIGHT_BOUNDARY - PLAYER_WIDTH / 2
  -- Clamp player position within boundaries
  let x := clampR x left_bound right_bound
  -- Handle ground collision
  if y ≤ GROUND_LEVEL then
    ({ velocity := ⟨vx, 0⟩, is_grounded := true, idx := p.idx }, ⟨x, GROUND_LEVEL⟩)
  else
    ({ velocity := ⟨vx, vy⟩, is_grounded := false, idx := p.idx }, ⟨x, y⟩)

/-- `player_movement`: early-return when the match is finished, otherwise
    run the per-player body on both players. -/
noncomputable def player_movement (mi : MatchInputs) (w : World) : World :=
  if w.match_state.is_finished then w
  else
    let r0 := player_movement_single mi w.player0 w.player0_pos
    let r1 := player_movement_single mi w.player1 w.player1_pos
    { w with player0 := r0.1, player0_pos := r0.2, player1 := r1.1, player1_pos := r1.2 }

/-! ### ball_movement (src/gameplay/gameplay_other_entities.rs) -/

/-- `Ball::reset`: new ball component and new translation. -/
noncomputable def Ball.reset (reset_to_right : Bool) : Ball × V2 :=
  (⟨⟨0, GRAVITY * 30⟩⟩, ⟨if reset_to_right then 290.0 else -290.0, 0⟩)

/-- The floor-collision / scoring block of `ball_movement`. -/
noncomputable def ball_floor_step (ms : MatchState) (b : Ball) (pos : V2) :
    MatchState × Ball × V2 :=
  if pos.y + BALL_RADIUS ≤ GROUND_LEVEL then
    let reset_to_right := decide (pos.x > CENTER_BOUNDARY)
    let scoring_player : Fin 2 := if reset_to_right then 0 else 1
    let r := Ball.reset reset_to_right
    (ms.increment_player_score scoring_player, r.1, r.2)
  else (ms, b, pos)

/-- The final speed clamp of `ball_movement` (and of `ball_player_collision`):
    `if speed > MAX_BALL_SPEED { velocity = velocity.normalize() * MAX_BALL_SPEED }`. -/
noncomputable def clamp_ball_speed (v : V2) : V2 :=
  let speed := v.length
  if speed > MAX_BALL_SPEED then
    ⟨v.x / speed * MAX_BALL_SPEED, v.y / speed * MAX_BALL_SPEED⟩
  else v

/-- The body of the per-ball loop of `ball_movement`: gravity, integration,
    horizontal boundary bounce, ceiling bounce, floor scoring, speed clamp,
    in source order. -/
noncomputable def ball_movement_core (ms : MatchState) (b : Ball) (pos : V2) :
    MatchState × Ball × V2 :=
  -- Apply gravity
  let vy := b.velocity.y - GRAVITY
  -- Update position
  let x := pos.x + b.velocity.x
  let y := pos.y + vy
  -- Handle horizontal boundary collisions
  let vx := if x - BALL_RADIUS ≤ LEFT_BOUNDARY ∨ x + BALL_RADIUS ≥ RIGHT_BOUNDARY
    then -b.velocity.x * BALL_BOUNCE_FACTOR else b.velocity.x
  let x := if x - BALL_RADIUS ≤ LEFT_BOUNDARY ∨ x + BALL_RADIUS ≥ RIGHT_BOUNDARY
    then clampR x (LEFT_BOUNDARY + BALL_RADIUS) (RIGHT_BOUNDARY - BALL_RADIUS) else x
  -- Handle ceiling collision
  let vy := if y + BALL_RADIUS ≥ 290.0 then -vy * BALL_BOUNCE_FACTOR else vy
  let y := if y + BALL_RADIUS ≥ 290.0 then 290.0 - BALL_RADIUS else y
  -- Handle floor collision and scoring
  let r := ball_floor_step ms ⟨⟨vx, vy⟩⟩ ⟨x, y⟩
  -- Clamp ball speed
  (r.1, ⟨clamp_ball_speed r.2.1.velocity⟩, r.2.2)

/-- `ball_movement`: early-return when finished, otherwise run the per-ball
    body on the single ball, updating the match state. -/
noncomputable def ball_movement (w : World) : World :=
  if w.match_state.is_finished then w
  else
    let r := ball_movement_core w.match_state w.ball w.ball_pos
    { w with match_state := r.1, ball := r.2.1, ball_pos := r.2.2 }

/-! ### ball_player_collision (src/gameplay/gameplay_player.rs) -/

/-- Rust `f32::signum` on the values arising here (positive zero included):
    -1 for negative inputs, +1 otherwise. -/
noncomputable def fsignum (x : ℝ) : ℝ := if x < 0 then -1 else 1

/-- The inner per-player test of `ball_player_collision`: when the
    axis-aligned box test hits, the computed (final_velocity, new_position)
    pair, otherwise none. -/
noncomputable def collide_with_player (ball_center : V2) (p : Player) (ppos : V2) :
    Option (V2 × V2) :=
  let player_center : V2 := ⟨ppos.x, ppos.y + PLAYER_HEIGHT / 2⟩
  let rel_x := ball_center.x - player_center.x
  let rel_y := ball_center.y - player_center.y
  -- Check for collision
  if |rel_x| < PLAYER_WIDTH / 2 + BALL_RADIUS ∧ |rel_y| < PLAYER_HEIGHT / 2 + BALL_RADIUS then
    -- Calculate relative position on the player
    let relative_x_pos := rel_x / (PLAYER_WIDTH / 2)
    let relative_x_pos := if p.idx = 1 then -relative_x_pos else relative_x_pos
    -- Calculate bounce angle
    let max_angle := Real.pi / 4
    let bounce_angle := relative_x_pos * max_angle
    -- Calculate new velocity
    let speed := MAX_BALL_SPEED * PLAYER_BOUNCE_FACTOR
    let nvx := Real.sin bounce_angle * speed
    let nvy := Real.cos bounce_angle * speed
    let nvx := if p.idx = 1 then -nvx else nvx
    -- Add player velocity to the ball
    let final_velocity : V2 := ⟨nvx + p.velocity.x * 0.5, nvy + p.velocity.y * 0.5⟩
    -- Calculate new position
    let new_position : V2 :=
      ⟨player_center.x + fsignum rel_x * (PLAYER_WIDTH / 2 + BALL_RADIUS + 1),
       player_center.y + PLAYER_HEIGHT / 2 + BALL_RADIUS + 1⟩
    some (final_velocity, new_position)
  else none

/-- The update-application pass of `ball_player_collision`: set the ball
    velocity, set only the y translation from the computed position, then
    clamp the ball speed. -/
noncomputable def apply_ball_update (w : World) (upd : V2 × V2) : World :=
  { w with
    ball := ⟨clamp_ball_speed upd.1⟩
    ball_pos := ⟨w.ball_pos.x, upd.2.y⟩ }

/-- `ball_player_collision`: early-return when finished; scan the players in
    entity-creation order (index 0 first), the first hit wins, and its update
    is applied in the second pass. -/
noncomputable def ball_player_collision (w : World) : World :=
  if w.match_state.is_finished then w
  else
    match collide_with_player w.ball_pos w.player0 w.player0_pos with
    | some upd => apply_ball_update w upd
    | none =>
      match collide_with_player w.ball_pos w.player1 w.player1_pos with
      | some upd => apply_ball_update w upd
      | none => w

/-! ### ball_net_collision (src/gameplay/gameplay_other_entities.rs) -/

/-- `ball_net_collision`: early-return when finished; otherwise test the
    single ball against the single net and apply the computed update. -/
noncomputable def ball_net_collision (w : World) : World :=
  if w.match_state.is_finished then w
  else
    let net_position := w.net_pos
    let ball_center := w.ball_pos
    -- Check for collision with the net
    if |ball_center.x - net_position.x| < NET_WIDTH / 2 + BALL_RADIUS ∧
        ball_center.y > net_position.y ∧
        ball_center.y < net_position.y + NET_HEIGHT + BALL_RADIUS then
      -- Check if it is a top collision
      if ball_center.y ≥ net_position.y + NET_HEIGHT - BALL_RADIUS then
        { w with
          ball := ⟨⟨w.ball.velocity.x, -w.ball.velocity.y * BALL_BOUNCE_FACTOR⟩⟩
          ball_pos := ⟨ball_center.x, net_position.y + NET_HEIGHT + BALL_RADIUS⟩ }
      else
        { w with
          ball := ⟨⟨-w.ball.velocity.x * BALL_BOUNCE_FACTOR, w.ball.velocity.y⟩⟩
          ball_pos := ⟨if ball_center.x < net_position.x then
              net_position.x - NET_WIDTH / 2 - BALL_RADIUS - 1
            else net_position.x + NET_WIDTH / 2 + BALL_RADIUS + 1, ball_center.y⟩ }
    else w

/-! ### update_ball_visibility and the tick pipeline -/

/-- `update_ball_visibility`: sets the alpha channel of the ball path colour
    to 0 when the match is finished, 1 otherwise (runs even when finished). -/
noncomputable def update_ball_visibility (w : World) : World :=
  { w with ball_alpha := if w.match_state.is_finished then 0 else 1 }

/-- One simulation tick: the Update-stage systems registered by
    GameplayPlugin::install, in registration order. -/
noncomputable def tick (mi : MatchInputs) (w : World) : World :=
  update_ball_visibility
    (ball_net_collision (ball_player_collision (ball_movement (player_movement mi w))))

/-- Iterated replay of the tick pipeline under a per-tick input sequence. -/
noncomputable def run (inputs : List MatchInputs) (w : World) : World :=
  inputs.foldl (fun s i => tick i s) w

/-- The world assembled by gameplay_startup: players at (∓290, GROUND_LEVEL),
    the net at (0, -259), the ball reset toward the left side, fresh match
    state with the target score of 15. -/
noncomputable def initialWorld : World :=
  { match_state := MatchState.new TARGET_SCORE
    player0 := { velocity := ⟨0, 0⟩, is_grounded := false, idx := 0 }
    player0_pos := ⟨-290, GROUND_LEVEL⟩
    player1 := { velocity := ⟨0, 0⟩, is_grounded := false, idx := 1 }
    player1_pos := ⟨290, GROUND_LEVEL⟩
    ball := (Ball.reset false).1
    ball_pos := (Ball.reset false).2
    net_pos := ⟨0, -259⟩
    ball_alpha := 1 }

/-- Neutral per-player control: no movement, no buttons. -/
noncomputable def neutralControl : PlayerControl :=
  { left := 0, right := 0, up := 0, down := 0, jump_pressed := false,
    jump_just_pressed := false, esc_start_pressed := false, enter_pressed := false }

/-- Neutral inputs for both players. -/
noncomputable def neutralInputs : MatchInputs := ⟨neutralControl, neutralControl⟩

/-- A match state in which player 0 has reached the target score. -/
def msDone : MatchState := { score0 := 15, score1 := 0, target_score := 15 }

/-- A control with jump held but with no rising edge this tick. -/
noncomputable def heldJumpControl : PlayerControl :=
  { left := 0, right := 0, up := 0, down := 0, jump_pressed := true,
    jump_just_pressed := false, esc_start_pressed := false, enter_pressed := false }

/-- Inputs holding jump for both players. -/
noncomputable def heldJumpInputs : MatchInputs := ⟨heldJumpControl, heldJumpControl⟩

/-- A mid-rally world: standing players at the startup positions, fresh
    scores, and the ball at the given position with the given velocity. -/
noncomputable def midRallyWorld (bpos bvel : V2) : World :=
  { match_state := MatchState.new TARGET_SCORE
    player0 := ⟨⟨0, 0⟩, true, 0⟩
    player0_pos := ⟨-290, GROUND_LEVEL⟩
    player1 := ⟨⟨0, 0⟩, true, 1⟩
    player1_pos := ⟨290, GROUND_LEVEL⟩
    ball := ⟨bvel⟩
    ball_pos := bpos
    net_pos := ⟨0, -259⟩
    ball_alpha := 1 }

/-- The world after the amended C2 scenario scores: player 0 has one point
    and the ball is reset to the right restart position. -/
noncomputable def midRallyScored : World :=
  { midRallyWorld ⟨50, GROUND_LEVEL - 10⟩ ⟨0, -5⟩ with
    match_state := ⟨1, 0, 15⟩, ball := ⟨⟨0, GRAVITY * 30⟩⟩, ball_pos := ⟨290.0, 0⟩ }

/-- Second definition following the spec words for claim C8: the player-0
    right clamp bound as "the left edge of the net minus half the player
    width". -/
noncomputable def spec_player0_right_bound : ℝ := -(NET_WIDTH / 2) - PLAYER_WIDTH / 2

/-! ### Helper lemmas about the stages -/

lemma MAX_BALL_SPEED_pos : (0 : ℝ) < MAX_BALL_SPEED := by norm_num [MAX_BALL_SPEED]

lemma V2.length_le_iff (v : V2) {c : ℝ} (hc : 0 ≤ c) :
    v.length ≤ c ↔ v.x ^ 2 + v.y ^ 2 ≤ c ^ 2 := by
  unfold V2.length
  rw [Real.sqrt_le_iff]
  exact ⟨fun h => h.2, fun h => ⟨hc, h⟩⟩

lemma clamp_ball_speed_eq_self {v : V2}
    (h : v.x ^ 2 + v.y ^ 2 ≤ MAX_BALL_SPEED ^ 2) : clamp_ball_speed v = v := by
  have hle : ¬ (v.length > MAX_BALL_SPEED) :=
    not_lt.2 ((V2.length_le_iff v MAX_BALL_SPEED_pos.le).2 h)
  simp [clamp_ball_speed, hle]

lemma clamp_ball_speed_length_le (v : V2) :
    (clamp_ball_speed v).length ≤ MAX_BALL_SPEED := by
  by_cases hgt : v.length > MAX_BALL_SPEED
  · have hs : 0 < v.length := lt_trans MAX_BALL_SPEED_pos hgt
    have hker : clamp_ball_speed v =
        ⟨v.x / v.length * MAX_BALL_SPEED, v.y / v.length * MAX_BALL_SPEED⟩ := by
      simp [clamp_ball_speed, hgt]
    rw [hker]
    have hL : Real.sqrt (v.x ^ 2 + v.y ^ 2) = v.length := rfl
    have hlen : (V2.mk (v.x / v.length * MAX_BALL_SPEED) (v.y / v.length * MAX_BALL_SPEED)).length
        = Real.sqrt ((v.x ^ 2 + v.y ^ 2) * (MAX_BALL_SPEED / v.length) ^ 2) := by
      unfold V2.length
      congr 1
      ring
    rw [hlen, Real.sqrt_mul (by positivity), Real.sqrt_sq_eq_abs, hL,
      abs_of_pos (div_pos MAX_BALL_SPEED_pos hs)]
    exact le_of_eq (by field_simp)
  · have : clamp_ball_speed v = v := by simp [clamp_ball_speed, hgt]
    rw [this]
    exact not_lt.1 hgt

lemma length_reflect_x (v : V2) :
    (V2.mk (-v.x * BALL_BOUNCE_FACTOR) v.y).length ≤ v.length := by
  unfold V2.length
  apply Real.sqrt_le_sqrt
  simp only [BALL_BOUNCE_FACTOR]
  nlinarith [sq_nonneg v.x]

lemma length_reflect_y (v : V2) :
    (V2.mk v.x (-v.y * BALL_BOUNCE_FACTOR)).length ≤ v.length := by
  unfold V2.length
  apply Real.sqrt_le_sqrt
  simp only [BALL_BOUNCE_FACTOR]
  nlinarith [sq_nonneg v.y]

lemma player_movement_ball (mi : MatchInputs) (w : World) :
    (player_movement mi w).ball = w.ball ∧ (player_movement mi w).ball_pos = w.ball_pos ∧
      (player_movement mi w).match_state = w.match_state := by
  unfold player_movement
  split <;> exact ⟨rfl, rfl, rfl⟩

lemma ball_movement_players (w : World) :
    (ball_movement w).player0 = w.player0 ∧ (ball_movement w).player0_pos = w.player0_pos ∧
      (ball_movement w).player1 = w.player1 ∧ (ball_movement w).player1_pos = w.player1_pos := by
  unfold ball_movement
  split <;> exact ⟨rfl, rfl, rfl, rfl⟩

lemma ball_player_collision_frame (w : World) :
    (ball_player_collision w).match_state = w.match_state ∧
      (ball_player_collision w).player0 = w.player0 ∧
      (ball_player_collision w).player0_pos = w.player0_pos ∧
      (ball_player_collision w).player1 = w.player1 ∧
      (ball_player_collision w).player1_pos = w.player1_pos := by
  unfold ball_player_collision apply_ball_update
  split
  · exact ⟨rfl, rfl, rfl, rfl, rfl⟩
  · split
    · exact ⟨rfl, rfl, rfl, rfl, rfl⟩
    · split <;> exact ⟨rfl, rfl, rfl, rfl, rfl⟩

lemma ball_net_collision_frame (w : World) :
    (ball_net_collision w).match_state = w.match_state ∧
      (ball_net_collision w).player0 = w.player0 ∧
      (ball_net_collision w).player0_pos = w.player0_pos ∧
      (ball_net_collision w).player1 = w.player1 ∧
      (ball_net_collision w).player1_pos = w.player1_pos := by
  unfold ball_net_collision
  dsimp only
  split
  · exact ⟨rfl, rfl, rfl, rfl, rfl⟩
  · split
    · split <;> exact ⟨rfl, rfl, rfl, rfl, rfl⟩
    · exact ⟨rfl, rfl, rfl, rfl, rfl⟩

lemma update_ball_visibility_frame (w : World) :
    (update_ball_visibility w).match_state = w.match_state ∧
      (update_ball_visibility w).player0 = w.player0 ∧
      (update_ball_visibility w).player0_pos = w.player0_pos ∧
      (update_ball_visibility w).player1 = w.player1 ∧
      (update_ball_visibility w).player1_pos = w.player1_pos ∧
      (update_ball_visibility w).ball = w.ball ∧
      (update_ball_visibility w).ball_pos = w.ball_pos :=
  ⟨rfl, rfl, rfl, rfl, rfl, rfl, rfl⟩

lemma player_movement_finished {w : World} (h : w.match_state.is_finished = true)
    (mi : MatchInputs) : player_movement mi w = w := by
  simp [player_movement, h]

lemma ball_movement_finished {w : World} (h : w.match_state.is_finished = true) :
    ball_movement w = w := by
  simp [ball_movement, h]

lemma ball_player_collision_finished {w : World} (h : w.match_state.is_finished = true) :
    ball_player_collision w = w := by
  simp [ball_player_collision, h]

lemma ball_net_collision_finished {w : World} (h : w.match_state.is_finished = true) :
    ball_net_collision w = w := by
  simp [ball_net_collision, h]

lemma tick_finished_frame (mi : MatchInputs) (w : World)
    (h : w.match_state.is_finished = true) :
    (tick mi w).match_state = w.match_state ∧
      (tick mi w).player0 = w.player0 ∧ (tick mi w).player0_pos = w.player0_pos ∧
      (tick mi w).player1 = w.player1 ∧ (tick mi w).player1_pos = w.player1_pos ∧
      (tick mi w).ball = w.ball ∧ (tick mi w).ball_pos = w.ball_pos := by
  unfold tick
  rw [player_movement_finished h, ball_movement_finished h,
    ball_player_collision_finished h, ball_net_collision_finished h]
  exact ⟨rfl, rfl, rfl, rfl, rfl, rfl, rfl⟩

/-! ### C1: replay determinism -/

/-- C1: the tick pipeline is a pure function of the snapshot and the injected
    per-tick input sequence: replaying the same inputs from the same snapshot
    any number of ticks yields identical state, with no other source of
    non-determinism. -/
theorem tick_replay_deterministic (S1 S2 : World) (I1 I2 : List MatchInputs)
    (hS : S1 = S2) (hI : I1 = I2) : run I1 S1 = run I2 S2 := by
  rw [hS, hI]

/-- Witness for C1 at the startup world and a concrete one-tick input trace. -/
theorem tick_replay_deterministic_witness :
    run [neutralInputs] initialWorld = run [neutralInputs] initialWorld :=
  tick_replay_deterministic initialWorld initialWorld [neutralInputs] [neutralInputs] rfl rfl

/-! ### C4: finished freeze -/

/-- C4: once the match state is finished, any number of further ticks leaves
    both scores and every player and ball position and velocity unchanged
    (each physics stage early-returns when finished). -/
theorem finished_freeze (I : List MatchInputs) (w : World)
    (h : w.match_state.is_finished = true) :
    (run I w).match_state = w.match_state ∧
      (run I w).player0 = w.player0 ∧ (run I w).player0_pos = w.player0_pos ∧
      (run I w).player1 = w.player1 ∧ (run I w).player1_pos = w.player1_pos ∧
      (run I w).ball = w.ball ∧ (run I w).ball_pos = w.ball_pos := by
  induction I generalizing w with
  | nil => exact ⟨rfl, rfl, rfl, rfl, rfl, rfl, rfl⟩
  | cons i I ih =>
    obtain ⟨h1, h2, h3, h4, h5, h6, h7⟩ := tick_finished_frame i w h
    have hrun : run (i :: I) w = run I (tick i w) := rfl
    obtain ⟨g1, g2, g3, g4, g5, g6, g7⟩ := ih (tick i w) (h1 ▸ h)
    rw [hrun]
    exact ⟨g1.trans h1, g2.trans h2, g3.trans h3, g4.trans h4, g5.trans h5,
      g6.trans h6, g7.trans h7⟩

/-- Witness for C4: a concrete finished world is frozen by a concrete tick. -/
theorem finished_freeze_witness :
    ({ initialWorld with match_state := msDone } : World).match_state.is_finished = true ∧
      (run [neutralInputs] { initialWorld with match_state := msDone }).match_state =
        msDone :=
  ⟨rfl, (finished_freeze [neutralInputs] { initialWorld with match_state := msDone } rfl).1⟩

/-! ### C6: score monotonicity -/

lemma ball_floor_step_fst (ms : MatchState) (b : Ball) (pos : V2) :
    (ball_floor_step ms b pos).1 = ms ∨
      (ball_floor_step ms b pos).1 = ms.increment_player_score 0 ∨
      (ball_floor_step ms b pos).1 = ms.increment_player_score 1 := by
  unfold ball_floor_step
  dsimp only
  split
  · by_cases hx : pos.x > CENTER_BOUNDARY
    · right; left; simp [hx]
    · right; right; simp [hx]
  · left; rfl

lemma ball_movement_match_state (w : World) :
    (ball_movement w).match_state = w.match_state ∨
      (ball_movement w).match_state = w.match_state.increment_player_score 0 ∨
      (ball_movement w).match_state = w.match_state.increment_player_score 1 := by
  unfold ball_movement ball_movement_core
  dsimp only
  split
  · left; rfl
  · exact ball_floor_step_fst _ _ _

/-- C6: across one tick neither score decreases and at most one player scores,
    by exactly one: the new score pair is the old one, or the old one with
    exactly one side incremented (the scoring side of the floor step). -/
theorem score_monotone_tick (mi : MatchInputs) (w : World) :
    ((tick mi w).match_state.score0 = w.match_state.score0 ∧
      (tick mi w).match_state.score1 = w.match_state.score1) ∨
    ((tick mi w).match_state.score0 = w.match_state.score0 + 1 ∧
      (tick mi w).match_state.score1 = w.match_state.score1) ∨
    ((tick mi w).match_state.score0 = w.match_state.score0 ∧
      (tick mi w).match_state.score1 = w.match_state.score1 + 1) := by
  unfold tick
  rw [(update_ball_visibility_frame _).1, (ball_net_collision_frame _).1,
    (ball_player_collision_frame _).1]
  have hpm := (player_movement_ball mi w).2.2
  rcases ball_movement_match_state (player_movement mi w) with h | h | h <;> rw [h, hpm]
  · exact Or.inl ⟨rfl, rfl⟩
  · exact Or.inr (Or.inl ⟨rfl, rfl⟩)
  · exact Or.inr (Or.inr ⟨rfl, rfl⟩)

/-! ### C10: exact-center floor scoring goes to player 1 -/

/-- C10: when the floor-collision scoring block fires with the ball center
    exactly at CENTER_BOUNDARY, the strict comparison is false, so player 1
    (the right player) scores and the ball resets to the left restart
    position (-290, 0) with velocity (0, GRAVITY * 30). -/
theorem center_tiebreak_scores_player1 (ms : MatchState) (b : Ball) (pos : V2)
    (hy : pos.y + BALL_RADIUS ≤ GROUND_LEVEL) (hx : pos.x = CENTER_BOUNDARY) :
    (ball_floor_step ms b pos).1.score1 = ms.score1 + 1 ∧
      (ball_floor_step ms b pos).1.score0 = ms.score0 ∧
      (ball_floor_step ms b pos).2.2 = ⟨-290, 0⟩ ∧
      (ball_floor_step ms b pos).2.1.velocity = ⟨0, GRAVITY * 30⟩ := by
  have hngt : ¬ (pos.x > CENTER_BOUNDARY) := by rw [hx]; exact lt_irrefl _
  simp [ball_floor_step, hy, hngt, Ball.reset, MatchState.increment_player_score]
  norm_num

/-- Witness for C10 at a concrete floor-breaching, exactly-centered ball. -/
theorem center_tiebreak_scores_player1_witness :
    (ball_floor_step ⟨3, 4, 15⟩ ⟨⟨1, 2⟩⟩ ⟨0, -300⟩).1.score1 = 5 ∧
      (ball_floor_step ⟨3, 4, 15⟩ ⟨⟨1, 2⟩⟩ ⟨0, -300⟩).2.2 = ⟨-290, 0⟩ := by
  have h := center_tiebreak_scores_player1 ⟨3, 4, 15⟩ ⟨⟨1, 2⟩⟩ ⟨0, -300⟩
    (by norm_num [BALL_RADIUS, GROUND_LEVEL]) (by norm_num [CENTER_BOUNDARY])
  exact ⟨h.1, h.2.2.1⟩

/-! ### C5: jump triggering

The claim says a merely-held jump (no rising edge) does not trigger a jump
while grounded.  The source reads `player_control.jump_pressed` (the held
flag), never `jump_just_pressed`, so a held jump re-triggers on any tick in
which the player is grounded. -/

/-- C5 counterexample: a grounded player whose jump input is merely held
    (jump_just_pressed = false) still gets velocity.y = JUMP_VELOCITY from
    player_movement, contradicting the claimed edge-triggering. -/
theorem jump_edge_trigger_counterexample :
    heldJumpControl.jump_just_pressed = false ∧
      heldJumpControl.jump_pressed = true ∧
      (player_movement_single heldJumpInputs ⟨⟨0, 0⟩, true, 0⟩
          ⟨-290, GROUND_LEVEL⟩).1.velocity.y = JUMP_VELOCITY := by
  refine ⟨rfl, rfl, ?_⟩
  unfold player_movement_single MatchInputs.get_control heldJumpInputs heldJumpControl
  norm_num [GROUND_LEVEL, JUMP_VELOCITY]

/-- C5 amended: the jump trigger is level-sensitive, not edge-sensitive: on
    any tick in which the jump input is held (jump_pressed) and the player is
    grounded at or above ground level, player_movement sets velocity.y =
    JUMP_VELOCITY and clears is_grounded. -/
theorem jump_level_trigger (mi : MatchInputs) (p : Player) (pos : V2)
    (hg : p.is_grounded = true) (hj : (mi.get_control p.idx).jump_pressed = true)
    (hy : GROUND_LEVEL ≤ pos.y) :
    (player_movement_single mi p pos).1.velocity.y = JUMP_VELOCITY ∧
      (player_movement_single mi p pos).1.is_grounded = false := by
  unfold player_movement_single
  have hy2 : ¬ (pos.y + JUMP_VELOCITY ≤ GROUND_LEVEL) := by
    have hJ : (0:ℝ) < JUMP_VELOCITY := by norm_num [JUMP_VELOCITY]
    push_neg
    linarith
  simp [hj, hg, hy2]

/-- Witness for C5 amended at a concrete grounded player holding jump. -/
theorem jump_level_trigger_witness :
    (player_movement_single heldJumpInputs ⟨⟨0, 0⟩, true, 0⟩
        ⟨-290, GROUND_LEVEL⟩).1.is_grounded = false :=
  (jump_level_trigger heldJumpInputs ⟨⟨0, 0⟩, true, 0⟩ ⟨-290, GROUND_LEVEL⟩
    rfl rfl le_rfl).2

/-! ### C3: ball speed bound after a full tick -/

lemma ball_movement_core_speed (ms : MatchState) (b : Ball) (pos : V2) :
    (ball_movement_core ms b pos).2.1.velocity.length ≤ MAX_BALL_SPEED := by
  unfold ball_movement_core
  dsimp only
  exact clamp_ball_speed_length_le _

lemma ball_movement_speed (w : World) (h : w.ball.velocity.length ≤ MAX_BALL_SPEED) :
    (ball_movement w).ball.velocity.length ≤ MAX_BALL_SPEED := by
  unfold ball_movement
  dsimp only
  split
  · exact h
  · exact ball_movement_core_speed _ _ _

lemma ball_player_collision_speed (w : World)
    (h : w.ball.velocity.length ≤ MAX_BALL_SPEED) :
    (ball_player_collision w).ball.velocity.length ≤ MAX_BALL_SPEED := by
  unfold ball_player_collision apply_ball_update
  split
  · exact h
  · split
    · exact clamp_ball_speed_length_le _
    · split
      · exact clamp_ball_speed_length_le _
      · exact h

lemma ball_net_collision_speed (w : World)
    (h : w.ball.velocity.length ≤ MAX_BALL_SPEED) :
    (ball_net_collision w).ball.velocity.length ≤ MAX_BALL_SPEED := by
  unfold ball_net_collision
  dsimp only
  split
  · exact h
  · split
    · split
      · exact le_trans (length_reflect_y _) h
      · exact le_trans (length_reflect_x _) h
    · exact h

/-- C3: if the ball starts a tick with speed at most MAX_BALL_SPEED, then
    after the full tick pipeline (ball_movement, then ball_player_collision,
    then ball_net_collision) its speed is again at most MAX_BALL_SPEED. -/
theorem ball_speed_bound_tick (mi : MatchInputs) (w : World)
    (h : w.ball.velocity.length ≤ MAX_BALL_SPEED) :
    (tick mi w).ball.velocity.length ≤ MAX_BALL_SPEED := by
  unfold tick
  have h1 : (player_movement mi w).ball = w.ball := (player_movement_ball mi w).1
  have h2 := ball_movement_speed (player_movement mi w) (by rw [h1]; exact h)
  have h3 := ball_player_collision_speed _ h2
  have h4 := ball_net_collision_speed _ h3
  exact h4

/-- Witness for C3 at the startup world under neutral inputs. -/
theorem ball_speed_bound_tick_witness :
    initialWorld.ball.velocity.length ≤ MAX_BALL_SPEED ∧
      (tick neutralInputs initialWorld).ball.velocity.length ≤ MAX_BALL_SPEED := by
  have h0 : initialWorld.ball.velocity.length ≤ MAX_BALL_SPEED := by
    rw [V2.length_le_iff _ MAX_BALL_SPEED_pos.le]
    show (0:ℝ) ^ 2 + (GRAVITY * 30) ^ 2 ≤ MAX_BALL_SPEED ^ 2
    norm_num [GRAVITY, MAX_BALL_SPEED]
  exact ⟨h0, ball_speed_bound_tick neutralInputs initialWorld h0⟩

/-! ### C7: dense input round trip -/

lemma testBit_65536 (i : ℕ) : Nat.testBit 65536 i = decide (16 = i) := by
  rw [show (65536 : ℕ) = 2 ^ 16 by norm_num, Nat.testBit_two_pow]

lemma testBit_131072 (i : ℕ) : Nat.testBit 131072 i = decide (17 = i) := by
  rw [show (131072 : ℕ) = 2 ^ 17 by norm_num, Nat.testBit_two_pow]

lemma testBit_262144 (i : ℕ) : Nat.testBit 262144 i = decide (18 = i) := by
  rw [show (262144 : ℕ) = 2 ^ 18 by norm_num, Nat.testBit_two_pow]

lemma testBit_dense_new (m : ℕ) (j e n : Bool) (i : ℕ) :
    (DensePlayerControl.new m j e n).testBit i =
      (m.testBit i || (j && decide (16 = i)) || (e && decide (17 = i)) ||
        (n && decide (18 = i))) := by
  unfold DensePlayerControl.new
  cases j <;> cases e <;> cases n <;>
    simp [Nat.testBit_or, Nat.shiftLeft_eq, testBit_65536, testBit_131072, testBit_262144]

lemma dense_new_lt (m : ℕ) (hm : m < 2 ^ 16) (j e n : Bool) :
    DensePlayerControl.new m j e n < 2 ^ 19 := by
  apply Nat.lt_pow_two_of_testBit
  intro i hi
  rw [testBit_dense_new]
  have hmi : m.testBit i = false :=
    Nat.testBit_eq_false_of_lt
      (lt_of_lt_of_le hm (Nat.pow_le_pow_right (by norm_num) (by omega)))
  rw [hmi, decide_eq_false (by omega : ¬ (16 = i)), decide_eq_false (by omega : ¬ (17 = i)),
    decide_eq_false (by omega : ¬ (18 = i))]
  simp

/-- C7: the dense control word stores the quantized 16-bit movement word in
    bits [0,16), jump in bit 16, escape/start in bit 17, enter in bit 18,
    with all higher bits zero, and the decoders reproduce the three flags
    exactly and the movement word exactly (hence the movement direction at
    the external quantization precision). -/
theorem dense_control_roundtrip (m : ℕ) (j e n : Bool) (hm : m < 2 ^ 16) :
    DensePlayerControl.move_bits (DensePlayerControl.new m j e n) = m ∧
      DensePlayerControl.jump_pressed (DensePlayerControl.new m j e n) = j ∧
      DensePlayerControl.esc_start_pressed (DensePlayerControl.new m j e n) = e ∧
      DensePlayerControl.enter_pressed (DensePlayerControl.new m j e n) = n ∧
      DensePlayerControl.new m j e n >>> 19 = 0 := by
  have hbit : ∀ k, 16 ≤ k → m.testBit k = false := fun k hk =>
    Nat.testBit_eq_false_of_lt
      (lt_of_lt_of_le hm (Nat.pow_le_pow_right (by norm_num) hk))
  refine ⟨?_, ?_, ?_, ?_, ?_⟩
  · unfold DensePlayerControl.move_bits
    rw [show (0xFFFF : ℕ) = 2 ^ 16 - 1 by norm_num, Nat.and_pow_two_sub_one_eq_mod]
    apply Nat.eq_of_testBit_eq
    intro i
    rw [Nat.testBit_mod_two_pow, testBit_dense_new]
    by_cases hi : i < 16
    · rw [decide_eq_false (by omega : ¬ (16 = i)), decide_eq_false (by omega : ¬ (17 = i)),
        decide_eq_false (by omega : ¬ (18 = i))]
      simp [hi]
    · simp [hi, hbit i (by omega)]
  · unfold DensePlayerControl.jump_pressed
    rw [show (1 <<< 16 : ℕ) = 2 ^ 16 by rw [Nat.shiftLeft_eq]; ring,
      Nat.and_two_pow, testBit_dense_new]
    simp [hbit 16 le_rfl]
    cases j <;> simp
  · unfold DensePlayerControl.esc_start_pressed
    rw [show (1 <<< 17 : ℕ) = 2 ^ 17 by rw [Nat.shiftLeft_eq]; ring,
      Nat.and_two_pow, testBit_dense_new]
    simp [hbit 17 (by omega)]
    cases e <;> simp
  · unfold DensePlayerControl.enter_pressed
    rw [show (1 <<< 18 : ℕ) = 2 ^ 18 by rw [Nat.shiftLeft_eq]; ring,
      Nat.and_two_pow, testBit_dense_new]
    simp [hbit 18 (by omega)]
    cases n <;> simp
  · rw [Nat.shiftRight_eq_div_pow]
    exact Nat.div_eq_of_lt (dense_new_lt m hm j e n)

/-! ### C2: floor scoring scenario

The source triggers floor scoring when `translation.y + BALL_RADIUS <=
GROUND_LEVEL`, i.e. when the TOP of the ball is at or below ground level,
not when the ball bottom crosses it.  From (50, GROUND_LEVEL + 5) with
velocity (0, -5) one tick moves the ball to y = GROUND_LEVEL - 0.39375,
whose top is well above GROUND_LEVEL, so no score occurs. -/

lemma midRally_not_finished (bpos bvel : V2) :
    (midRallyWorld bpos bvel).match_state.is_finished = false := rfl

lemma player_movement_single_neutral_p0 (g : Bool) :
    player_movement_single neutralInputs ⟨⟨0, 0⟩, g, 0⟩ ⟨-290, GROUND_LEVEL⟩ =
      (⟨⟨0, 0⟩, true, 0⟩, ⟨-290, GROUND_LEVEL⟩) := by
  unfold player_movement_single MatchInputs.get_control neutralInputs neutralControl
  norm_num [clampR, GROUND_LEVEL, GRAVITY, MOVE_SPEED, LEFT_BOUNDARY, CENTER_BOUNDARY,
    PLAYER_WIDTH, NET_WIDTH]

lemma player_movement_single_neutral_p1 (g : Bool) :
    player_movement_single neutralInputs ⟨⟨0, 0⟩, g, 1⟩ ⟨290, GROUND_LEVEL⟩ =
      (⟨⟨0, 0⟩, true, 1⟩, ⟨290, GROUND_LEVEL⟩) := by
  unfold player_movement_single MatchInputs.get_control neutralInputs neutralControl
  norm_num [clampR, GROUND_LEVEL, GRAVITY, MOVE_SPEED, RIGHT_BOUNDARY, CENTER_BOUNDARY,
    PLAYER_WIDTH, NET_WIDTH]

lemma player_movement_midRally (bpos bvel : V2) :
    player_movement neutralInputs (midRallyWorld bpos bvel) = midRallyWorld bpos bvel := by
  unfold player_movement
  rw [if_neg (by rw [midRally_not_finished]; exact Bool.false_ne_true)]
  simp only [midRallyWorld, player_movement_single_neutral_p0,
    player_movement_single_neutral_p1]

/-- Characterization of `ball_movement_core` when no boundary, ceiling or
    floor collision fires: gravity plus integration plus final clamp. -/
lemma ball_movement_core_free (ms : MatchState) (b : Ball) (pos : V2)
    (hbound : ¬ (pos.x + b.velocity.x - BALL_RADIUS ≤ LEFT_BOUNDARY ∨
      pos.x + b.velocity.x + BALL_RADIUS ≥ RIGHT_BOUNDARY))
    (hceil : ¬ (pos.y + (b.velocity.y - GRAVITY) + BALL_RADIUS ≥ 290.0))
    (hfloor : ¬ (pos.y + (b.velocity.y - GRAVITY) + BALL_RADIUS ≤ GROUND_LEVEL)) :
    ball_movement_core ms b pos =
      (ms, ⟨clamp_ball_speed ⟨b.velocity.x, b.velocity.y - GRAVITY⟩⟩,
        ⟨pos.x + b.velocity.x, pos.y + (b.velocity.y - GRAVITY)⟩) := by
  unfold ball_movement_core ball_floor_step
  simp only [if_neg hbound, if_neg hceil, if_neg hfloor]

/-- Characterization of `ball_movement_core` when only the floor collision
    fires on the right half: player 0 scores, the ball resets to (290, 0). -/
lemma ball_movement_core_floor_right (ms : MatchState) (b : Ball) (pos : V2)
    (hbound : ¬ (pos.x + b.velocity.x - BALL_RADIUS ≤ LEFT_BOUNDARY ∨
      pos.x + b.velocity.x + BALL_RADIUS ≥ RIGHT_BOUNDARY))
    (hceil : ¬ (pos.y + (b.velocity.y - GRAVITY) + BALL_RADIUS ≥ 290.0))
    (hfloor : pos.y + (b.velocity.y - GRAVITY) + BALL_RADIUS ≤ GROUND_LEVEL)
    (hright : pos.x + b.velocity.x > CENTER_BOUNDARY) :
    ball_movement_core ms b pos =
      (ms.increment_player_score 0, ⟨clamp_ball_speed ⟨0, GRAVITY * 30⟩⟩, ⟨290.0, 0⟩) := by
  unfold ball_movement_core ball_floor_step Ball.reset
  simp only [if_neg hbound, if_neg hceil, if_pos hfloor, decide_eq_true hright, if_true]

/-- The inner player test returns none when the box test misses. -/
lemma collide_with_player_none (ball_center : V2) (p : Player) (ppos : V2)
    (h : ¬ (|ball_center.x - ppos.x| < PLAYER_WIDTH / 2 + BALL_RADIUS ∧
      |ball_center.y - (ppos.y + PLAYER_HEIGHT / 2)| < PLAYER_HEIGHT / 2 + BALL_RADIUS)) :
    collide_with_player ball_center p ppos = none := by
  unfold collide_with_player
  simp only
  rw [if_neg h]

/-- The net stage is a no-op when the ball is horizontally clear of the net. -/
lemma ball_net_collision_miss (w : World)
    (h : ¬ (|w.ball_pos.x - w.net_pos.x| < NET_WIDTH / 2 + BALL_RADIUS ∧
      w.ball_pos.y > w.net_pos.y ∧
      w.ball_pos.y < w.net_pos.y + NET_HEIGHT + BALL_RADIUS)) :
    ball_net_collision w = w := by
  unfold ball_net_collision
  simp only [if_neg h]
  split <;> rfl

/-- C2 counterexample: from ball (50, GROUND_LEVEL + 5) with velocity
    (0, -5), one tick produces no floor breach and no score (the source
    floor trigger is ball-top-below-ground, y + BALL_RADIUS ≤ GROUND_LEVEL,
    which this tick does not reach), refuting the claimed score [1, 0]. -/
theorem floor_scenario_counterexample :
    (tick neutralInputs (midRallyWorld ⟨50, GROUND_LEVEL + 5⟩ ⟨0, -5⟩)).match_state.score0 = 0 ∧
      (tick neutralInputs (midRallyWorld ⟨50, GROUND_LEVEL + 5⟩ ⟨0, -5⟩)).match_state.score1
        = 0 := by
  unfold tick
  rw [player_movement_midRally,
    (update_ball_visibility_frame _).1, (ball_net_collision_frame _).1,
    (ball_player_collision_frame _).1]
  unfold ball_movement
  rw [if_neg (by rw [midRally_not_finished]; exact Bool.false_ne_true)]
  have hcore : (ball_movement_core (MatchState.new TARGET_SCORE) ⟨⟨0, -5⟩⟩
      ⟨50, GROUND_LEVEL + 5⟩).1 = MatchState.new TARGET_SCORE := by
    rw [ball_movement_core_free _ _ _
      (by norm_num [BALL_RADIUS, LEFT_BOUNDARY, RIGHT_BOUNDARY])
      (by norm_num [BALL_RADIUS, GROUND_LEVEL, GRAVITY])
      (by norm_num [BALL_RADIUS, GROUND_LEVEL, GRAVITY])]
  show (ball_movement_core (MatchState.new TARGET_SCORE) ⟨⟨0, -5⟩⟩
      ⟨50, GROUND_LEVEL + 5⟩).1.score0 = 0 ∧
    (ball_movement_core (MatchState.new TARGET_SCORE) ⟨⟨0, -5⟩⟩
      ⟨50, GROUND_LEVEL + 5⟩).1.score1 = 0
  rw [hcore]
  exact ⟨rfl, rfl⟩

/-- C2 amended: the floor trigger is y + BALL_RADIUS ≤ GROUND_LEVEL (ball
    fully below ground level), so a breaching scenario must start lower:
    from ball (50, GROUND_LEVEL - 10) with velocity (0, -5), one tick gives
    a floor breach right of center, score [1, 0], and the ball repositioned
    to (290, 0) with velocity (0, GRAVITY * 30). -/
theorem floor_scenario_amended :
    (tick neutralInputs (midRallyWorld ⟨50, GROUND_LEVEL - 10⟩ ⟨0, -5⟩)).match_state.score0
        = 1 ∧
      (tick neutralInputs (midRallyWorld ⟨50, GROUND_LEVEL - 10⟩ ⟨0, -5⟩)).match_state.score1
        = 0 ∧
      (tick neutralInputs (midRallyWorld ⟨50, GROUND_LEVEL - 10⟩ ⟨0, -5⟩)).ball_pos
        = ⟨290, 0⟩ ∧
      (tick neutralInputs (midRallyWorld ⟨50, GROUND_LEVEL - 10⟩ ⟨0, -5⟩)).ball.velocity
        = ⟨0, GRAVITY * 30⟩ := by
  have hclamp : clamp_ball_speed ⟨0, GRAVITY * 30⟩ = ⟨0, GRAVITY * 30⟩ :=
    clamp_ball_speed_eq_self (by norm_num [GRAVITY, MAX_BALL_SPEED])
  have hbm : ball_movement (midRallyWorld ⟨50, GROUND_LEVEL - 10⟩ ⟨0, -5⟩) =
      midRallyScored := by
    unfold ball_movement
    rw [if_neg (by rw [midRally_not_finished]; exact Bool.false_ne_true)]
    rw [show (midRallyWorld ⟨50, GROUND_LEVEL - 10⟩ ⟨0, -5⟩).match_state
        = MatchState.new TARGET_SCORE from rfl,
      show (midRallyWorld ⟨50, GROUND_LEVEL - 10⟩ ⟨0, -5⟩).ball = ⟨⟨0, -5⟩⟩ from rfl,
      show (midRallyWorld ⟨50, GROUND_LEVEL - 10⟩ ⟨0, -5⟩).ball_pos
        = ⟨50, GROUND_LEVEL - 10⟩ from rfl,
      ball_movement_core_floor_right _ _ _
        (by norm_num [BALL_RADIUS, LEFT_BOUNDARY, RIGHT_BOUNDARY])
        (by norm_num [BALL_RADIUS, GROUND_LEVEL, GRAVITY])
        (by norm_num [BALL_RADIUS, GROUND_LEVEL, GRAVITY])
        (by norm_num [CENTER_BOUNDARY]),
      hclamp]
    rfl
  have hfin : midRallyScored.match_state.is_finished = false := rfl
  have hpc : ball_player_collision midRallyScored = midRallyScored := by
    unfold ball_player_collision
    rw [if_neg (by rw [hfin]; exact Bool.false_ne_true)]
    rw [show midRallyScored.ball_pos = ⟨290.0, 0⟩ from rfl,
      show midRallyScored.player0_pos = ⟨-290, GROUND_LEVEL⟩ from rfl,
      show midRallyScored.player1_pos = ⟨290, GROUND_LEVEL⟩ from rfl]
    rw [collide_with_player_none _ _ _
      (by norm_num [PLAYER_WIDTH, PLAYER_HEIGHT, BALL_RADIUS, GROUND_LEVEL])]
    rw [collide_with_player_none _ _ _
      (by norm_num [PLAYER_WIDTH, PLAYER_HEIGHT, BALL_RADIUS, GROUND_LEVEL])]
  have hnet : ball_net_collision midRallyScored = midRallyScored := by
    apply ball_net_collision_miss
    rw [show midRallyScored.ball_pos = ⟨290.0, 0⟩ from rfl,
      show midRallyScored.net_pos = ⟨0, -259⟩ from rfl]
    norm_num [NET_WIDTH, NET_HEIGHT, BALL_RADIUS]
  unfold tick
  rw [player_movement_midRally, hbm, hpc, hnet]
  refine ⟨rfl, rfl, ?_, rfl⟩
  show (⟨290.0, 0⟩ : V2) = ⟨290, 0⟩
  norm_num

/-! ### C9: ball repositioning after a player collision

The source computes a new_position with both coordinates, but the
update-application pass writes only `translation.y`; the computed X offset
is discarded, so the ball X is unchanged by ball_player_collision. -/

/-- The inner player test returns the computed update when the box test
    hits; in particular the computed position is the claimed offset pair. -/
lemma collide_with_player_hit (ball_center : V2) (p : Player) (ppos : V2)
    (h : |ball_center.x - ppos.x| < PLAYER_WIDTH / 2 + BALL_RADIUS ∧
      |ball_center.y - (ppos.y + PLAYER_HEIGHT / 2)| < PLAYER_HEIGHT / 2 + BALL_RADIUS) :
    ∃ fv, collide_with_player ball_center p ppos = some (fv,
      ⟨ppos.x + fsignum (ball_center.x - ppos.x) * (PLAYER_WIDTH / 2 + BALL_RADIUS + 1),
       ppos.y + PLAYER_HEIGHT / 2 + PLAYER_HEIGHT / 2 + BALL_RADIUS + 1⟩) := by
  unfold collide_with_player
  dsimp only
  rw [if_pos h]
  exact ⟨_, rfl⟩

/-- Effect of ball_player_collision when the scan hits player 0: only the y
    translation is overwritten, x is kept, and the speed clamp is applied. -/
lemma ball_player_collision_hit0 (w : World)
    (hnf : w.match_state.is_finished = false)
    (h : |w.ball_pos.x - w.player0_pos.x| < PLAYER_WIDTH / 2 + BALL_RADIUS ∧
      |w.ball_pos.y - (w.player0_pos.y + PLAYER_HEIGHT / 2)| <
        PLAYER_HEIGHT / 2 + BALL_RADIUS) :
    (ball_player_collision w).ball_pos.x = w.ball_pos.x ∧
      (ball_player_collision w).ball_pos.y =
        w.player0_pos.y + PLAYER_HEIGHT / 2 + PLAYER_HEIGHT / 2 + BALL_RADIUS + 1 ∧
      (ball_player_collision w).ball.velocity.length ≤ MAX_BALL_SPEED := by
  obtain ⟨fv, hsome⟩ := collide_with_player_hit w.ball_pos w.player0 w.player0_pos h
  unfold ball_player_collision
  rw [if_neg (by rw [hnf]; exact Bool.false_ne_true), hsome]
  exact ⟨rfl, rfl, clamp_ball_speed_length_le _⟩

/-- C9 counterexample: a concrete detected collision with player 0 leaves
    the ball X unchanged (-280), while the reposition X the claim describes
    (player center plus signed half-width + radius + 1) is -234: the X
    offset is computed but never applied by the source. -/
theorem reposition_counterexample :
    (ball_player_collision (midRallyWorld ⟨-280, -230⟩ ⟨0, -2⟩)).ball_pos.x = -280 ∧
      (midRallyWorld ⟨-280, -230⟩ ⟨0, -2⟩).player0_pos.x +
        fsignum ((midRallyWorld ⟨-280, -230⟩ ⟨0, -2⟩).ball_pos.x -
            (midRallyWorld ⟨-280, -230⟩ ⟨0, -2⟩).player0_pos.x) *
          (PLAYER_WIDTH / 2 + BALL_RADIUS + 1) = -234 ∧
      ((-280 : ℝ) ≠ -234) := by
  refine ⟨?_, ?_, by norm_num⟩
  · have h := ball_player_collision_hit0 (midRallyWorld ⟨-280, -230⟩ ⟨0, -2⟩) rfl
      (by norm_num [midRallyWorld, PLAYER_WIDTH, PLAYER_HEIGHT, BALL_RADIUS, GROUND_LEVEL])
    exact h.1
  · show (-290 : ℝ) + fsignum ((-280) - (-290)) * (PLAYER_WIDTH / 2 + BALL_RADIUS + 1) = -234
    norm_num [fsignum, PLAYER_WIDTH, BALL_RADIUS]

/-- C9 amended: for every detected ball-player collision (first matching
    player wins), the ball Y is set just above the winning player's box,
    the ball X is left unchanged (the computed X offset is discarded), and
    the global speed clamp is re-applied to the resulting velocity. -/
theorem reposition_amended (w : World)
    (hnf : w.match_state.is_finished = false)
    (hcases :
      (|w.ball_pos.x - w.player0_pos.x| < PLAYER_WIDTH / 2 + BALL_RADIUS ∧
        |w.ball_pos.y - (w.player0_pos.y + PLAYER_HEIGHT / 2)| <
          PLAYER_HEIGHT / 2 + BALL_RADIUS) ∨
      (¬ (|w.ball_pos.x - w.player0_pos.x| < PLAYER_WIDTH / 2 + BALL_RADIUS ∧
          |w.ball_pos.y - (w.player0_pos.y + PLAYER_HEIGHT / 2)| <
            PLAYER_HEIGHT / 2 + BALL_RADIUS) ∧
        (|w.ball_pos.x - w.player1_pos.x| < PLAYER_WIDTH / 2 + BALL_RADIUS ∧
          |w.ball_pos.y - (w.player1_pos.y + PLAYER_HEIGHT / 2)| <
            PLAYER_HEIGHT / 2 + BALL_RADIUS))) :
    (ball_player_collision w).ball_pos.x = w.ball_pos.x ∧
      ((ball_player_collision w).ball_pos.y =
          w.player0_pos.y + PLAYER_HEIGHT / 2 + PLAYER_HEIGHT / 2 + BALL_RADIUS + 1 ∨
        (ball_player_collision w).ball_pos.y =
          w.player1_pos.y + PLAYER_HEIGHT / 2 + PLAYER_HEIGHT / 2 + BALL_RADIUS + 1) ∧
      (ball_player_collision w).ball.velocity.length ≤ MAX_BALL_SPEED := by
  rcases hcases with h0 | ⟨h0, h1⟩
  · obtain ⟨fv, hsome⟩ := collide_with_player_hit w.ball_pos w.player0 w.player0_pos h0
    unfold ball_player_collision
    rw [if_neg (by rw [hnf]; exact Bool.false_ne_true), hsome]
    exact ⟨rfl, Or.inl rfl, clamp_ball_speed_length_le _⟩
  · obtain ⟨fv, hsome⟩ := collide_with_player_hit w.ball_pos w.player1 w.player1_pos h1
    unfold ball_player_collision
    rw [if_neg (by rw [hnf]; exact Bool.false_ne_true),
      collide_with_player_none _ _ _ h0, hsome]
    exact ⟨rfl, Or.inr rfl, clamp_ball_speed_length_le _⟩

/-- Witness for C9 amended at a concrete collision with player 0. -/
theorem reposition_amended_witness :
    (ball_player_collision (midRallyWorld ⟨-285, -230⟩ ⟨3, -2⟩)).ball_pos.x = -285 := by
  have h := reposition_amended (midRallyWorld ⟨-285, -230⟩ ⟨3, -2⟩) rfl
    (Or.inl (by norm_num [midRallyWorld, PLAYER_WIDTH, PLAYER_HEIGHT, BALL_RADIUS,
      GROUND_LEVEL]))
  exact h.1

/-! ### C8: boundary containment

The ball-center bound [LEFT_BOUNDARY + BALL_RADIUS, RIGHT_BOUNDARY -
BALL_RADIUS] matches the source.  The player clamp, however, uses
CENTER_BOUNDARY - PLAYER_WIDTH/2 - NET_WIDTH (= -55) as the player-0 right
bound, not the spec wording "left edge of the net minus half the player
width" (= -50); a refinement definition of the spec bound is compared
against the code below. -/

lemma clampR_mem (x lo hi : ℝ) (h : lo ≤ hi) :
    lo ≤ clampR x lo hi ∧ clampR x lo hi ≤ hi :=
  ⟨le_min (le_max_right x lo) h, min_le_right _ _⟩

lemma player_movement_single_x0 (mi : MatchInputs) (p : Player) (pos : V2)
    (h0 : p.idx = 0) :
    LEFT_BOUNDARY + PLAYER_WIDTH / 2 ≤ (player_movement_single mi p pos).2.x ∧
      (player_movement_single mi p pos).2.x ≤
        CENTER_BOUNDARY - PLAYER_WIDTH / 2 - NET_WIDTH := by
  unfold player_movement_single
  have h00 : ((0 : Fin 2) = 0) = True := eq_true rfl
  simp only [h0, h00, if_true]
  split <;> split <;>
    exact clampR_mem _ _ _
      (by norm_num [LEFT_BOUNDARY, PLAYER_WIDTH, CENTER_BOUNDARY, NET_WIDTH])

lemma player_movement_single_x1 (mi : MatchInputs) (p : Player) (pos : V2)
    (h1 : p.idx = 1) :
    CENTER_BOUNDARY + NET_WIDTH + PLAYER_WIDTH / 2 ≤ (player_movement_single mi p pos).2.x ∧
      (player_movement_single mi p pos).2.x ≤ RIGHT_BOUNDARY - PLAYER_WIDTH / 2 := by
  unfold player_movement_single
  have h10 : ((1 : Fin 2) = 0) = False := eq_false (by decide)
  simp only [h1, h10, if_false]
  split <;> split <;>
    exact clampR_mem _ _ _
      (by norm_num [RIGHT_BOUNDARY, PLAYER_WIDTH, CENTER_BOUNDARY, NET_WIDTH])

lemma ball_floor_step_x (ms : MatchState) (b : Ball) (pos : V2) :
    (ball_floor_step ms b pos).2.2.x = pos.x ∨
      (ball_floor_step ms b pos).2.2.x = 290.0 ∨
      (ball_floor_step ms b pos).2.2.x = -290.0 := by
  unfold ball_floor_step Ball.reset
  dsimp only
  split
  · split
    · right; left; rfl
    · right; right; rfl
  · left; rfl

lemma ball_movement_core_pos_eq (ms : MatchState) (b : Ball) (pos : V2) :
    ∃ b' y, (ball_movement_core ms b pos).2.2 = (ball_floor_step ms b'
      ⟨if pos.x + b.velocity.x - BALL_RADIUS ≤ LEFT_BOUNDARY ∨
          pos.x + b.velocity.x + BALL_RADIUS ≥ RIGHT_BOUNDARY
        then clampR (pos.x + b.velocity.x) (LEFT_BOUNDARY + BALL_RADIUS)
          (RIGHT_BOUNDARY - BALL_RADIUS)
        else pos.x + b.velocity.x, y⟩).2.2 := by
  unfold ball_movement_core
  dsimp only
  exact ⟨_, _, rfl⟩

lemma ball_movement_core_x_bounds (ms : MatchState) (b : Ball) (pos : V2) :
    LEFT_BOUNDARY + BALL_RADIUS ≤ (ball_movement_core ms b pos).2.2.x ∧
      (ball_movement_core ms b pos).2.2.x ≤ RIGHT_BOUNDARY - BALL_RADIUS := by
  obtain ⟨b', y, heq⟩ := ball_movement_core_pos_eq ms b pos
  rw [heq]
  rcases ball_floor_step_x ms b' _ with h | h | h <;> rw [h]
  · dsimp only
    by_cases hb : pos.x + b.velocity.x - BALL_RADIUS ≤ LEFT_BOUNDARY ∨
        pos.x + b.velocity.x + BALL_RADIUS ≥ RIGHT_BOUNDARY
    · rw [if_pos hb]
      exact clampR_mem _ _ _
        (by norm_num [LEFT_BOUNDARY, RIGHT_BOUNDARY, BALL_RADIUS])
    · rw [if_neg hb]
      push_neg at hb
      constructor
      · linarith [hb.1]
      · linarith [hb.2]
  · constructor <;> norm_num [LEFT_BOUNDARY, RIGHT_BOUNDARY, BALL_RADIUS]
  · constructor <;> norm_num [LEFT_BOUNDARY, RIGHT_BOUNDARY, BALL_RADIUS]

lemma player_movement_net (mi : MatchInputs) (w : World) :
    (player_movement mi w).net_pos = w.net_pos := by
  unfold player_movement
  split <;> rfl

lemma ball_movement_net (w : World) : (ball_movement w).net_pos = w.net_pos := by
  unfold ball_movement
  split <;> rfl

lemma ball_player_collision_net (w : World) :
    (ball_player_collision w).net_pos = w.net_pos := by
  unfold ball_player_collision apply_ball_update
  split
  · rfl
  · split
    · rfl
    · split <;> rfl

lemma ball_player_collision_ball_x (w : World) :
    (ball_player_collision w).ball_pos.x = w.ball_pos.x := by
  unfold ball_player_collision apply_ball_update
  split
  · rfl
  · split
    · rfl
    · split <;> rfl

lemma ball_net_collision_net (w : World) :
    (ball_net_collision w).net_pos = w.net_pos := by
  unfold ball_net_collision
  dsimp only
  split
  · rfl
  · split
    · split <;> rfl
    · rfl

lemma player_movement_player_x (mi : MatchInputs) (w : World)
    (h0 : w.player0.idx = 0) (h1 : w.player1.idx = 1)
    (hp0 : LEFT_BOUNDARY + PLAYER_WIDTH / 2 ≤ w.player0_pos.x ∧
      w.player0_pos.x ≤ CENTER_BOUNDARY - PLAYER_WIDTH / 2 - NET_WIDTH)
    (hp1 : CENTER_BOUNDARY + NET_WIDTH + PLAYER_WIDTH / 2 ≤ w.player1_pos.x ∧
      w.player1_pos.x ≤ RIGHT_BOUNDARY - PLAYER_WIDTH / 2) :
    (LEFT_BOUNDARY + PLAYER_WIDTH / 2 ≤ (player_movement mi w).player0_pos.x ∧
      (player_movement mi w).player0_pos.x ≤
        CENTER_BOUNDARY - PLAYER_WIDTH / 2 - NET_WIDTH) ∧
    (CENTER_BOUNDARY + NET_WIDTH + PLAYER_WIDTH / 2 ≤ (player_movement mi w).player1_pos.x ∧
      (player_movement mi w).player1_pos.x ≤ RIGHT_BOUNDARY - PLAYER_WIDTH / 2) := by
  unfold player_movement
  split
  · exact ⟨hp0, hp1⟩
  · exact ⟨player_movement_single_x0 mi _ _ h0, player_movement_single_x1 mi _ _ h1⟩

lemma ball_movement_ball_x (w : World)
    (hb : LEFT_BOUNDARY + BALL_RADIUS ≤ w.ball_pos.x ∧
      w.ball_pos.x ≤ RIGHT_BOUNDARY - BALL_RADIUS) :
    LEFT_BOUNDARY + BALL_RADIUS ≤ (ball_movement w).ball_pos.x ∧
      (ball_movement w).ball_pos.x ≤ RIGHT_BOUNDARY - BALL_RADIUS := by
  unfold ball_movement
  split
  · exact hb
  · exact ball_movement_core_x_bounds _ _ _

lemma ball_net_collision_ball_x (w : World) (hnet : w.net_pos = ⟨0, -259⟩)
    (hb : LEFT_BOUNDARY + BALL_RADIUS ≤ w.ball_pos.x ∧
      w.ball_pos.x ≤ RIGHT_BOUNDARY - BALL_RADIUS) :
    LEFT_BOUNDARY + BALL_RADIUS ≤ (ball_net_collision w).ball_pos.x ∧
      (ball_net_collision w).ball_pos.x ≤ RIGHT_BOUNDARY - BALL_RADIUS := by
  unfold ball_net_collision
  dsimp only
  split
  · exact hb
  · split
    · split
      · exact hb
      · rw [hnet]
        dsimp only
        split <;> constructor <;>
          norm_num [NET_WIDTH, BALL_RADIUS, LEFT_BOUNDARY, RIGHT_BOUNDARY]
    · exact hb

/-- C8 counterexample: the claim describes the player-0 clamp upper bound as
    the left edge of the net minus half the player width (-50), but the
    source clamps at CENTER_BOUNDARY - PLAYER_WIDTH/2 - NET_WIDTH (-55): a
    stationary player 0 at x = -52 is moved to -55 by player_movement,
    whereas the clamp the claim describes would leave it at -52. -/
theorem boundary_containment_counterexample :
    (player_movement_single neutralInputs ⟨⟨0, 0⟩, true, 0⟩ ⟨-52, GROUND_LEVEL⟩).2.x
        = -55 ∧
      clampR (-52) (LEFT_BOUNDARY + PLAYER_WIDTH / 2) spec_player0_right_bound = -52 ∧
      ((-55 : ℝ) ≠ -52) := by
  refine ⟨?_, ?_, by norm_num⟩
  · unfold player_movement_single MatchInputs.get_control neutralInputs neutralControl
    norm_num [clampR, GROUND_LEVEL, GRAVITY, MOVE_SPEED, LEFT_BOUNDARY, CENTER_BOUNDARY,
      PLAYER_WIDTH, NET_WIDTH]
  · norm_num [clampR, spec_player0_right_bound, LEFT_BOUNDARY, PLAYER_WIDTH, NET_WIDTH]

/-- C8 amended: with the code clamp bounds — player 0 in
    [LEFT_BOUNDARY + PLAYER_WIDTH/2, CENTER_BOUNDARY - PLAYER_WIDTH/2 -
    NET_WIDTH], player 1 in [CENTER_BOUNDARY + NET_WIDTH + PLAYER_WIDTH/2,
    RIGHT_BOUNDARY - PLAYER_WIDTH/2] — containment holds after any tick: the
    ball center X stays in [LEFT_BOUNDARY + BALL_RADIUS, RIGHT_BOUNDARY -
    BALL_RADIUS] and each player X stays in its half-court interval, so
    players never cross the net region. -/
theorem boundary_containment_amended (mi : MatchInputs) (w : World)
    (h0 : w.player0.idx = 0) (h1 : w.player1.idx = 1)
    (hnet : w.net_pos = ⟨0, -259⟩)
    (hball : LEFT_BOUNDARY + BALL_RADIUS ≤ w.ball_pos.x ∧
      w.ball_pos.x ≤ RIGHT_BOUNDARY - BALL_RADIUS)
    (hp0 : LEFT_BOUNDARY + PLAYER_WIDTH / 2 ≤ w.player0_pos.x ∧
      w.player0_pos.x ≤ CENTER_BOUNDARY - PLAYER_WIDTH / 2 - NET_WIDTH)
    (hp1 : CENTER_BOUNDARY + NET_WIDTH + PLAYER_WIDTH / 2 ≤ w.player1_pos.x ∧
      w.player1_pos.x ≤ RIGHT_BOUNDARY - PLAYER_WIDTH / 2) :
    (LEFT_BOUNDARY + BALL_RADIUS ≤ (tick mi w).ball_pos.x ∧
      (tick mi w).ball_pos.x ≤ RIGHT_BOUNDARY - BALL_RADIUS) ∧
    (LEFT_BOUNDARY + PLAYER_WIDTH / 2 ≤ (tick mi w).player0_pos.x ∧
      (tick mi w).player0_pos.x ≤ CENTER_BOUNDARY - PLAYER_WIDTH / 2 - NET_WIDTH) ∧
    (CENTER_BOUNDARY + NET_WIDTH + PLAYER_WIDTH / 2 ≤ (tick mi w).player1_pos.x ∧
      (tick mi w).player1_pos.x ≤ RIGHT_BOUNDARY - PLAYER_WIDTH / 2) := by
  unfold tick
  have e1b : (player_movement mi w).ball_pos = w.ball_pos := (player_movement_ball mi w).2.1
  have e1n : (player_movement mi w).net_pos = w.net_pos := player_movement_net mi w
  have hple := player_movement_player_x mi w h0 h1 hp0 hp1
  have h2b := ball_movement_ball_x (player_movement mi w) (by rw [e1b]; exact hball)
  have e2n : (ball_movement (player_movement mi w)).net_pos = w.net_pos := by
    rw [ball_movement_net, e1n]
  have e2p := ball_movement_players (player_movement mi w)
  have h3b : LEFT_BOUNDARY + BALL_RADIUS ≤
        (ball_player_collision (ball_movement (player_movement mi w))).ball_pos.x ∧
      (ball_player_collision (ball_movement (player_movement mi w))).ball_pos.x ≤
        RIGHT_BOUNDARY - BALL_RADIUS := by
    rw [ball_player_collision_ball_x]
    exact h2b
  have e3n : (ball_player_collision (ball_movement (player_movement mi w))).net_pos
      = ⟨0, -259⟩ := by
    rw [ball_player_collision_net, e2n, hnet]
  have e3p := ball_player_collision_frame (ball_movement (player_movement mi w))
  have h4b := ball_net_collision_ball_x _ e3n h3b
  have e4p := ball_net_collision_frame
    (ball_player_collision (ball_movement (player_movement mi w)))
  refine ⟨?_, ?_, ?_⟩
  · rw [(update_ball_visibility_frame _).2.2.2.2.2.2]
    exact h4b
  · rw [(update_ball_visibility_frame _).2.2.1, e4p.2.2.1, e3p.2.2.1, e2p.2.1]
    exact hple.1
  · rw [(update_ball_visibility_frame _).2.2.2.2.1, e4p.2.2.2.2, e3p.2.2.2.2, e2p.2.2.2]
    exact hple.2

/-- Witness for C8 amended at the startup world under neutral inputs. -/
theorem boundary_containment_amended_witness :
    LEFT_BOUNDARY + BALL_RADIUS ≤ (tick neutralInputs initialWorld).ball_pos.x ∧
      (tick neutralInputs initialWorld).ball_pos.x ≤ RIGHT_BOUNDARY - BALL_RADIUS := by
  have h := boundary_containment_amended neutralInputs initialWorld rfl rfl rfl
    (by constructor <;> norm_num [initialWorld, Ball.reset, LEFT_BOUNDARY,
      RIGHT_BOUNDARY, BALL_RADIUS])
    (by constructor <;> norm_num [initialWorld, LEFT_BOUNDARY, CENTER_BOUNDARY,
      PLAYER_WIDTH, NET_WIDTH])
    (by constructor <;> norm_num [initialWorld, RIGHT_BOUNDARY, CENTER_BOUNDARY,
      PLAYER_WIDTH, NET_WIDTH])
  exact h.1

/-- Witness for C7 at a concrete movement word and flag combination. -/
theorem dense_control_roundtrip_witness :
    (0x1234 : ℕ) < 2 ^ 16 ∧
      (DensePlayerControl.move_bits (DensePlayerControl.new 0x1234 true false true) = 0x1234 ∧
        DensePlayerControl.jump_pressed (DensePlayerControl.new 0x1234 true false true) = true ∧
        DensePlayerControl.esc_start_pressed
          (DensePlayerControl.new 0x1234 true false true) = false ∧
        DensePlayerControl.enter_pressed (DensePlayerControl.new 0x1234 true false true) = true ∧
        DensePlayerControl.new 0x1234 true false true >>> 19 = 0) :=
  ⟨by norm_num, dense_control_roundtrip 0x1234 true false true (by norm_num)⟩

end BonesVolleyball
